import Mathlib

set_option linter.unusedVariables false

/-!
Verification development for the banking-apk repository.

The definitions below are a shallow embedding of the analysis core of the
repository: the risk-scoring functions of
src/bankapk/server/apk-analyzer/analyzer.js, the pipeline control flow of
analyzeAPK, the manifest fallback chain of analyzeManifest, the job-record
write model of updateProgress and the timeout handler, and the threat store
of src/bankapk/server/threat-database/database.js.

JavaScript numbers that hold risk scores are modelled as Nat: every score in
the source is built from non-negative integer constants by addition,
Math.max, Math.min and a subtraction that the source itself floors at zero
with Math.max(x - d, 0), which coincides with truncated Nat subtraction.
Math.round(0.55 * p + 0.45 * c) on integer inputs is modelled exactly as
(55 * p + 45 * c + 50) / 100 in Nat arithmetic (round half away from zero on
non-negative rationals with denominator 100).
-/

namespace BankAPK

/-- Model of JavaScript String.prototype.toLowerCase for the ASCII range used
by the analyzer. -/
def jsToLower (s : String) : String :=
  String.mk (s.data.map Char.toLower)

/-- Model of JavaScript String.prototype.toUpperCase for the ASCII range used
by the analyzer. -/
def jsToUpper (s : String) : String :=
  String.mk (s.data.map Char.toUpper)

/-- Scan for a contiguous occurrence of the needle inside the haystack. -/
def charsContain (needle : List Char) : List Char → Bool
  | [] => needle.isEmpty
  | b :: bs => needle.isPrefixOf (b :: bs) || charsContain needle bs

/-- Model of JavaScript String.prototype.includes: the needle occurs as a
contiguous substring of the haystack. -/
def strIncludes (hay needle : String) : Bool :=
  charsContain needle.toList hay.toList

/-- True when the (already lower-cased) text contains one of the given
lower-cased alternatives; models an /a|b|c/i regex test in analyzer.js, whose
subject strings are lower-cased before the test. -/
def matchesAny (text : String) (alts : List String) : Bool :=
  alts.any (fun a => strIncludes text a)

/-! ## Threat analysis record

checkThreatDatabase (analyzer.js lines 751-777) returns an object with the
fields below; only isKnownThreat is consulted by the scoring code. -/

structure ThreatAnalysis where
  isKnownThreat : Bool
  threatType : Option String
  confidence : Nat
  description : Option String
deriving DecidableEq, Repr

/-- The negative lookup result returned by checkThreatDatabase when neither
hash nor package name matched (analyzer.js lines 771-776). -/
def noThreat : ThreatAnalysis :=
  { isKnownThreat := false, threatType := none, confidence := 0, description := none }

/-! ## calculateTotalRisk (analyzer.js lines 970-990) -/

/-- Source embedding of calculateTotalRisk: weighted base, floor 70 on a
strong sub-score, floor 90 on a known threat, cap 20 on two very low
sub-scores without a threat, then clamp to the 0-100 range. -/
def calculateTotalRisk (permissionRisk codeRisk : Nat) (threatAnalysis : ThreatAnalysis) : Nat :=
  let totalRisk := (55 * permissionRisk + 45 * codeRisk + 50) / 100
  let totalRisk := if 60 ≤ permissionRisk ∨ 60 ≤ codeRisk then max totalRisk 70 else totalRisk
  let totalRisk := if threatAnalysis.isKnownThreat then max totalRisk 90 else totalRisk
  let totalRisk :=
    if (permissionRisk < 15 ∧ codeRisk < 15) ∧ ¬threatAnalysis.isKnownThreat then
      min totalRisk 20
    else totalRisk
  max 0 (min totalRisk 100)

/-- Statement of claim C1 in its own words: round the weighted sum, floor at
70 when either sub-score reaches 60, floor at 90 on a threat match, cap at 20
when both sub-scores are below 15 with no match, and clamp to 0-100. -/
def totalRiskPerClaim (p c : Nat) (threatMatched : Bool) : Nat :=
  let base := (55 * p + 45 * c + 50) / 100
  let floored := if 60 ≤ p ∨ 60 ≤ c then max base 70 else base
  let floored := if threatMatched then max floored 90 else floored
  let capped :=
    if p < 15 ∧ c < 15 ∧ threatMatched = false then min floored 20 else floored
  max 0 (min capped 100)

/-! ## calculatePermissionRisk (analyzer.js lines 459-519) -/

/-- High-tier permissions of calculatePermissionRisk (lines 463-467). -/
def highRiskPerms : List String :=
  ["android.permission.BIND_ACCESSIBILITY_SERVICE",
   "android.permission.SYSTEM_ALERT_WINDOW",
   "android.permission.TYPE_APPLICATION_OVERLAY"]

/-- Medium-tier permissions of calculatePermissionRisk (lines 470-478). -/
def mediumRiskPerms : List String :=
  ["android.permission.RECEIVE_SMS",
   "android.permission.READ_SMS",
   "android.permission.SEND_SMS",
   "android.permission.READ_CONTACTS",
   "android.permission.WRITE_CONTACTS",
   "android.permission.READ_CALL_LOG",
   "android.permission.WRITE_CALL_LOG"]

/-- Low-tier permissions of calculatePermissionRisk (lines 481-489). -/
def lowRiskPerms : List String :=
  ["android.permission.CAMERA",
   "android.permission.RECORD_AUDIO",
   "android.permission.ACCESS_FINE_LOCATION",
   "android.permission.ACCESS_COARSE_LOCATION",
   "android.permission.READ_PHONE_STATE",
   "android.permission.INTERNET",
   "android.permission.ACCESS_NETWORK_STATE"]

/-- Per-permission increment of the forEach body at lines 492-504. -/
def permIncrement (perm : String) : Nat :=
  if highRiskPerms.contains perm then 25
  else if mediumRiskPerms.contains perm then 15
  else if lowRiskPerms.contains perm then 8
  else 10

/-- Source embedding of calculatePermissionRisk. The permissions argument is
accepted, as in the source, but the body only reads suspiciousPermissions.
Math.max(riskScore - 5, 0) coincides with truncated Nat subtraction. -/
def calculatePermissionRisk (permissions suspiciousPermissions : List String) : Nat :=
  let riskScore := suspiciousPermissions.foldl (fun acc p => acc + permIncrement p) 10
  let riskScore :=
    if suspiciousPermissions.length = 1 ∧
        lowRiskPerms.contains (suspiciousPermissions.headD "") then
      max (riskScore - 5) 0
    else riskScore
  let riskScore := if 5 ≤ suspiciousPermissions.length then riskScore + 15 else riskScore
  max 0 (min riskScore 100)

/-- Statement of claim C6 in its own words: 10 base, a tier-dependent
increment per matched permission, minus 5 for exactly one low-tier match,
plus 15 for five or more matches, clamped to 0-100. -/
def permissionRiskPerClaim (suspicious : List String) : Nat :=
  let total := 10 + (suspicious.map permIncrement).sum
  let adjusted :=
    match suspicious with
    | [p] => if lowRiskPerms.contains p then total - 5 else total
    | _ => total
  let adjusted := if 5 ≤ suspicious.length then adjusted + 15 else adjusted
  max 0 (min adjusted 100)

/-! ## calculateCodeRisk (analyzer.js lines 678-749) -/

/-- Risk tier assigned to a matched code pattern by the categorization at
lines 686-722; unknown patterns fall into the low bucket as in the source. -/
inductive PatternTier where
  | high
  | medium
  | low
deriving DecidableEq, Repr

/-- Categorization of a pattern name: upper-case it and test the substring
alternatives of the three if branches at lines 690-717. -/
def patternTier (pattern : String) : PatternTier :=
  let pat := jsToUpper pattern
  if strIncludes pat "SYSTEM_ALERT_WINDOW" ∨ strIncludes pat "TYPE_APPLICATION_OVERLAY" ∨
      strIncludes pat "ACCESSIBILITYSERVICE" ∨ strIncludes pat "KEYLOGGER" ∨
      strIncludes pat "SCREEN_CAPTURE" ∨ strIncludes pat "BANKING_TROJAN" ∨
      strIncludes pat "CREDENTIAL_STEALER" then
    PatternTier.high
  else if strIncludes pat "SMS" ∨ strIncludes pat "CONTACTS" ∨ strIncludes pat "CALL_LOG" ∨
      strIncludes pat "RECORD_AUDIO" ∨ strIncludes pat "CAMERA" ∨
      strIncludes pat "MEDIAPROJECTION" ∨ strIncludes pat "VIRTUALDISPLAY" ∨
      strIncludes pat "DEVICEADMIN" ∨ strIncludes pat "DEVICEPOLICY" then
    PatternTier.medium
  else
    PatternTier.low

/-- Source embedding of calculateCodeRisk over the list of matched pattern
names (the .pattern field of each match object). -/
def calculateCodeRisk (suspiciousPatterns : List String) : Nat :=
  let highCount := (suspiciousPatterns.filter (fun p => patternTier p = PatternTier.high)).length
  let mediumCount := (suspiciousPatterns.filter (fun p => patternTier p = PatternTier.medium)).length
  let lowCount := (suspiciousPatterns.filter (fun p => patternTier p = PatternTier.low)).length
  let riskScore := 0
  let riskScore := if 0 < highCount then riskScore + min (25 + highCount * 8) 60 else riskScore
  let riskScore := if 2 ≤ mediumCount then riskScore + min (20 + mediumCount * 5) 40 else riskScore
  let riskScore := if 3 ≤ lowCount then riskScore + min (15 + lowCount * 3) 30 else riskScore
  let riskScore :=
    if suspiciousPatterns.length = 1 ∧ lowCount = 1 then max (riskScore - 5) 0 else riskScore
  let riskScore := if highCount = 0 ∧ mediumCount = 0 then max (riskScore - 10) 0 else riskScore
  min riskScore 100

/-! ## generateFinalResult (analyzer.js lines 779-968)

Data records for the five inputs. analyzeFileStructure (lines 181-193) never
sets a filename field, yet generateFinalResult reads fileAnalysis?.filename;
the field is therefore modelled as an Option that the pipeline leaves none,
read back through jsToLower (String(undefined or empty) gives the empty
string). Likewise analyzeManifest never sets signatures, but line 904 reads
manifestAnalysis?.signatures?.some(...). -/

structure FileAnalysis where
  size : Nat
  hash : Option String
  hashSha1 : Option String
  isValidAPK : Bool
  filename : Option String
deriving DecidableEq, Repr

structure ManifestInfo where
  packageName : String
  versionCode : String
  versionName : String
  permissions : List String
  activities : List String
  services : List String
  receivers : List String
  providers : List String
  signatures : Option (List String)
deriving DecidableEq, Repr

structure PermissionAnalysis where
  total : Nat
  suspicious : List String
  banking : List String
  riskScore : Nat
deriving DecidableEq, Repr

/-- One match object pushed by scanForSuspiciousPatterns (lines 654-658). -/
structure CodePattern where
  pattern : String
  file : String
  confidence : String
deriving DecidableEq, Repr

structure CodeAnalysis where
  dexFiles : Nat
  suspiciousPatterns : List CodePattern
  riskScore : Nat
  error : Option String
deriving DecidableEq, Repr

/-- One entry of riskBreakdown.adjustments; exactly one of the three
magnitude fields is set by each push in the source. -/
structure Adjustment where
  factor : String
  boost : Option Nat
  reduction : Option Nat
  cap : Option Nat
deriving DecidableEq, Repr

/-- Adjustment entry carrying a boost magnitude. -/
def boostAdj (factor : String) (n : Nat) : Adjustment :=
  { factor := factor, boost := some n, reduction := none, cap := none }

/-- Adjustment entry carrying a reduction magnitude. -/
def reductionAdj (factor : String) (n : Nat) : Adjustment :=
  { factor := factor, boost := none, reduction := some n, cap := none }

/-- Adjustment entry carrying a cap magnitude. -/
def capAdj (factor : String) (n : Nat) : Adjustment :=
  { factor := factor, boost := none, reduction := none, cap := some n }

/-- Malware-indicator alternatives of the regex at line 802. -/
def maliciousNameAlts : List String := ["hack", "trojan", "malware", "virus", "spyware"]

/-- Modded-app alternatives of the regex at line 808. -/
def moddedNameAlts : List String := ["mod", "vanced", "microg", "happymod", "gamedva"]

/-- Banking-domain alternatives of the regex at line 895. -/
def bankingNameAlts : List String := ["bank", "finance", "payment", "wallet", "credit"]

/-- High-risk permission list local to generateFinalResult (lines 815-819). -/
def aggHighRiskPerms : List String :=
  ["android.permission.BIND_ACCESSIBILITY_SERVICE",
   "android.permission.SYSTEM_ALERT_WINDOW",
   "android.permission.TYPE_APPLICATION_OVERLAY"]

/-- Medium-risk permission list local to generateFinalResult (lines 821-827);
note it is shorter than the scorer list of calculatePermissionRisk. -/
def aggMediumRiskPerms : List String :=
  ["android.permission.RECEIVE_SMS",
   "android.permission.READ_SMS",
   "android.permission.SEND_SMS",
   "android.permission.READ_CONTACTS",
   "android.permission.WRITE_CONTACTS"]

/-- Low-risk permission list local to generateFinalResult (lines 829-834). -/
def aggLowRiskPerms : List String :=
  ["android.permission.CAMERA",
   "android.permission.RECORD_AUDIO",
   "android.permission.ACCESS_FINE_LOCATION",
   "android.permission.ACCESS_COARSE_LOCATION"]

/-- High-risk code-pattern test of the filter at lines 863-870 (a shorter
alternative list than the one inside calculateCodeRisk). -/
def aggPatternIsHigh (p : CodePattern) : Bool :=
  let pat := jsToUpper p.pattern
  strIncludes pat "SYSTEM_ALERT_WINDOW" ∨ strIncludes pat "TYPE_APPLICATION_OVERLAY" ∨
    strIncludes pat "ACCESSIBILITYSERVICE" ∨ strIncludes pat "KEYLOGGER" ∨
    strIncludes pat "SCREEN_CAPTURE"

/-- Medium-risk code-pattern test of the filter at lines 872-879. -/
def aggPatternIsMedium (p : CodePattern) : Bool :=
  let pat := jsToUpper p.pattern
  strIncludes pat "SMS" ∨ strIncludes pat "CONTACTS" ∨ strIncludes pat "CALL_LOG" ∨
    strIncludes pat "RECORD_AUDIO" ∨ strIncludes pat "CAMERA"

/-- Score and adjustment log threaded through the contextual passes. -/
structure ScoreState where
  score : Nat
  adjustments : List Adjustment
deriving DecidableEq, Repr

/-- The recurring statement pattern of generateFinalResult: when the
condition holds, raise the score to at least the boost with Math.max and push
a named adjustment entry. -/
def applyFloor (cond : Prop) [Decidable cond] (boost : Nat) (a : Adjustment)
    (st : ScoreState) : ScoreState :=
  if cond then { score := max st.score boost, adjustments := st.adjustments ++ [a] } else st

/-- Malicious-name floor of lines 802-805. -/
def maliciousNameStep (filename packageName : String) (st : ScoreState) : ScoreState :=
  applyFloor
    (matchesAny filename maliciousNameAlts ∨ matchesAny packageName maliciousNameAlts)
    80 (boostAdj "Malicious filename/package" 80) st

/-- Modded-app floor of lines 808-811. -/
def moddedNameStep (filename packageName : String) (st : ScoreState) : ScoreState :=
  applyFloor (matchesAny filename moddedNameAlts ∨ matchesAny packageName moddedNameAlts)
    55 (boostAdj "Modded app indicators" 55) st

/-- Contextual permission floors of lines 814-859. -/
def permissionBoostsStep (permissionAnalysis : PermissionAnalysis) (st : ScoreState) :
    ScoreState :=
  if permissionAnalysis.suspicious.length ≠ 0 then
    let highRiskCount :=
      (permissionAnalysis.suspicious.filter (fun p => aggHighRiskPerms.contains p)).length
    let mediumRiskCount :=
      (permissionAnalysis.suspicious.filter (fun p => aggMediumRiskPerms.contains p)).length
    let lowRiskCount :=
      (permissionAnalysis.suspicious.filter (fun p => aggLowRiskPerms.contains p)).length
    applyFloor (3 ≤ lowRiskCount) (min (20 + lowRiskCount * 3) 35)
      (boostAdj ("Multiple low-risk permissions (" ++ toString lowRiskCount ++ ")")
        (min (20 + lowRiskCount * 3) 35))
      (applyFloor (2 ≤ mediumRiskCount) (min (25 + mediumRiskCount * 5) 45)
        (boostAdj ("Multiple medium-risk permissions (" ++ toString mediumRiskCount ++ ")")
          (min (25 + mediumRiskCount * 5) 45))
        (applyFloor (0 < highRiskCount) (min (30 + highRiskCount * 10) 60)
          (boostAdj ("High-risk permissions (" ++ toString highRiskCount ++ ")")
            (min (30 + highRiskCount * 10) 60))
          st))
  else st

/-- Contextual code-pattern floors of lines 862-892. -/
def patternBoostsStep (codeAnalysis : CodeAnalysis) (st : ScoreState) : ScoreState :=
  if codeAnalysis.suspiciousPatterns.length ≠ 0 then
    let highPat := (codeAnalysis.suspiciousPatterns.filter aggPatternIsHigh).length
    let mediumPat := (codeAnalysis.suspiciousPatterns.filter aggPatternIsMedium).length
    applyFloor (2 ≤ mediumPat) (min (25 + mediumPat * 5) 45)
      (boostAdj ("Multiple medium-risk patterns (" ++ toString mediumPat ++ ")")
        (min (25 + mediumPat * 5) 45))
      (applyFloor (0 < highPat) (min (35 + highPat * 8) 60)
        (boostAdj ("High-risk code patterns (" ++ toString highPat ++ ")")
          (min (35 + highPat * 8) 60))
        st)
  else st

/-- Contextual boosts of generateFinalResult applied before the banking-name
check, in the order of the source: malicious-name floor 80, modded-name floor
55, permission-count floors, code-pattern-count floors. filename and
packageName arrive already lower-cased as in lines 798-799. -/
def contextualBoosts (filename packageName : String) (permissionAnalysis : PermissionAnalysis)
    (codeAnalysis : CodeAnalysis) (st : ScoreState) : ScoreState :=
  patternBoostsStep codeAnalysis
    (permissionBoostsStep permissionAnalysis
      (moddedNameStep filename packageName
        (maliciousNameStep filename packageName st)))

/-- Intermediate score of generateFinalResult at the banking-name check
(line 895): the calculateTotalRisk base followed by every contextual boost. -/
def scoreBeforeBanking (fileAnalysis : FileAnalysis) (manifestAnalysis : ManifestInfo)
    (permissionAnalysis : PermissionAnalysis) (codeAnalysis : CodeAnalysis)
    (threatAnalysis : ThreatAnalysis) : ScoreState :=
  let base := calculateTotalRisk permissionAnalysis.riskScore codeAnalysis.riskScore threatAnalysis
  let filename := jsToLower (fileAnalysis.filename.getD "")
  let packageName := jsToLower manifestAnalysis.packageName
  contextualBoosts filename packageName permissionAnalysis codeAnalysis
    { score := base, adjustments := [] }

/-- Banking-name reduction of lines 895-901: with a banking-domain indicator
in package name or filename and a current score below 60, subtract 15. -/
def bankingReductionStep (filename packageName : String) (st : ScoreState) : ScoreState :=
  if matchesAny packageName bankingNameAlts ∨ matchesAny filename bankingNameAlts then
    if st.score < 60 then
      { score := max (st.score - 15) 0,
        adjustments := st.adjustments ++ [reductionAdj "Legitimate banking app indicators" 15] }
    else st
  else st

/-- Signature test of line 904: some signature mentions google or android. -/
def manifestHasPlatformSignature (manifestAnalysis : ManifestInfo) : Bool :=
  match manifestAnalysis.signatures with
  | none => false
  | some sigs => sigs.any (fun sig => strIncludes sig "google" ∨ strIncludes sig "android")

/-- Platform-signature reduction of lines 904-909. -/
def signatureReductionStep (manifestAnalysis : ManifestInfo) (st : ScoreState) : ScoreState :=
  if manifestHasPlatformSignature manifestAnalysis then
    if st.score < 50 then
      { score := max (st.score - 10) 0,
        adjustments := st.adjustments ++ [reductionAdj "Google/Android signature detected" 10] }
    else st
  else st

/-- No-signals cap of lines 916-924: empty suspicious-permission list, empty
pattern list and no known threat cap the score at 20. -/
def noSignalsCapStep (permissionAnalysis : PermissionAnalysis) (codeAnalysis : CodeAnalysis)
    (threatAnalysis : ThreatAnalysis) (st : ScoreState) : ScoreState :=
  if permissionAnalysis.suspicious.length = 0 ∧ codeAnalysis.suspiciousPatterns.length = 0 ∧
      ¬threatAnalysis.isKnownThreat then
    { score := min st.score 20,
      adjustments := st.adjustments ++ [capAdj "No suspicious signals detected" 20] }
  else st

/-- Low-signals guard of lines 926-935: both sub-scores below 25 and no known
threat cap the score at 20. -/
def lowSignalsGuardStep (permissionAnalysis : PermissionAnalysis) (codeAnalysis : CodeAnalysis)
    (threatAnalysis : ThreatAnalysis) (st : ScoreState) : ScoreState :=
  if permissionAnalysis.riskScore < 25 ∧ codeAnalysis.riskScore < 25 ∧
      ¬threatAnalysis.isKnownThreat then
    { score := min st.score 20,
      adjustments := st.adjustments ++
        [capAdj "Low signals guard (perm<25 & code<25, no known threat)" 20] }
  else st

/-- determineRiskLevel (analyzer.js lines 992-999). -/
def determineRiskLevel (riskScore : Nat) : String :=
  if riskScore < 30 then "safe"
  else if riskScore < 50 then "low_risk"
  else if riskScore < 70 then "suspicious"
  else if riskScore < 85 then "high_risk"
  else "malicious"

/-- calculateConfidence (analyzer.js lines 1001-1011). -/
def calculateConfidence (permissionAnalysis : PermissionAnalysis) (codeAnalysis : CodeAnalysis)
    (threatAnalysis : ThreatAnalysis) : Nat :=
  if threatAnalysis.isKnownThreat then 95
  else if 50 < permissionAnalysis.riskScore ∨ 50 < codeAnalysis.riskScore then 85
  else 70

/-- generateRecommendations (analyzer.js lines 1013-1034). -/
def generateRecommendations (riskLevel : String) (permissionAnalysis : PermissionAnalysis) :
    List String :=
  let base :=
    if riskLevel = "safe" then
      ["This APK appears to be safe for installation",
       "Always download from official sources when possible"]
    else if riskLevel = "suspicious" then
      ["Exercise caution - this APK has some suspicious characteristics",
       "Review the detailed analysis before making a decision",
       "Consider downloading from official sources instead"]
    else
      ["DO NOT INSTALL this APK - high risk of malware",
       "Delete the file immediately",
       "Report to your bank if this claims to be a banking app"]
  if permissionAnalysis.suspicious.length ≠ 0 then
    base ++ ["Review suspicious permissions: " ++
      String.intercalate ", " permissionAnalysis.suspicious]
  else base

/-- Final verdict assembled by generateFinalResult. -/
structure FinalResult where
  id : String
  status : String
  riskLevel : String
  riskScore : Nat
  isSafe : Bool
  confidence : Nat
  baseScore : Nat
  adjustments : List Adjustment
  recommendations : List String
deriving DecidableEq, Repr

/-- Source embedding of generateFinalResult: base aggregation, contextual
boosts, banking and signature reductions, the two low-signal caps, the final
clamp and the derived summary fields. -/
def generateFinalResult (analysisId : String) (fileAnalysis : FileAnalysis)
    (manifestAnalysis : ManifestInfo) (permissionAnalysis : PermissionAnalysis)
    (codeAnalysis : CodeAnalysis) (threatAnalysis : ThreatAnalysis) : FinalResult :=
  let base := calculateTotalRisk permissionAnalysis.riskScore codeAnalysis.riskScore threatAnalysis
  let filename := jsToLower (fileAnalysis.filename.getD "")
  let packageName := jsToLower manifestAnalysis.packageName
  let st := scoreBeforeBanking fileAnalysis manifestAnalysis permissionAnalysis codeAnalysis
    threatAnalysis
  let st := bankingReductionStep filename packageName st
  let st := signatureReductionStep manifestAnalysis st
  let st := noSignalsCapStep permissionAnalysis codeAnalysis threatAnalysis st
  let st := lowSignalsGuardStep permissionAnalysis codeAnalysis threatAnalysis st
  let totalRiskScore := max 0 (min st.score 100)
  let riskLevel := determineRiskLevel totalRiskScore
  { id := analysisId,
    status := "completed",
    riskLevel := riskLevel,
    riskScore := totalRiskScore,
    isSafe := riskLevel = "safe",
    confidence := calculateConfidence permissionAnalysis codeAnalysis threatAnalysis,
    baseScore := base,
    adjustments := st.adjustments,
    recommendations := generateRecommendations riskLevel permissionAnalysis }

/-! ## analyzeManifest (analyzer.js lines 247-317)

The function works over the file system and two external parsers (xml2js and
the binary buffer scan), so those effects are abstracted into an oracle
record describing what each recovery tier would produce on the concrete
extracted tree. The control flow of the source is embedded exactly: a missing
manifest file throws; a structured-parse failure falls to the binary scan; an
empty or failed binary scan falls to the regex tier; a failed regex-tier read
throws the final error. -/

structure ManifestSource where
  /-- fs.pathExists for AndroidManifest.xml at line 250. -/
  present : Bool
  /-- Outcome of the structured xml2js parse plus attribute extraction (lines
  254-268); none models the parser throwing on a binary manifest. -/
  structuredParse : Option ManifestInfo
  /-- Outcome of extractPermissionsFromBinaryBuffer (lines 273-288); none
  models the buffer read itself throwing. -/
  binaryPermissions : Option (List String)
  /-- Outcome of the regex tier (lines 294-311): package, versionName and
  versionCode regex captures plus extractPermissionsFallback; none models the
  text re-read throwing. -/
  textExtract : Option (Option String × Option String × Option String × List String)
deriving DecidableEq, Repr

/-- ManifestInfo with every field defaulted, as assembled by the binary tier
(lines 278-287) around a recovered permission list. -/
def unknownManifestWith (perms : List String) : ManifestInfo :=
  { packageName := "Unknown", versionCode := "Unknown", versionName := "Unknown",
    permissions := perms, activities := [], services := [], receivers := [],
    providers := [], signatures := none }

/-- The fully defaulted ManifestInfo substituted by the pipeline catch at
analyzer.js line 104. -/
def defaultManifestInfo : ManifestInfo :=
  unknownManifestWith []

/-- Source embedding of analyzeManifest. It returns Except because the source
throws at line 251 when the manifest file is absent and at line 314 when
every recovery tier fails. -/
def analyzeManifest (src : ManifestSource) : Except String ManifestInfo :=
  if ¬src.present then Except.error "AndroidManifest.xml not found"
  else
    match src.structuredParse with
    | some mi => Except.ok mi
    | none =>
      let textTier : Except String ManifestInfo :=
        match src.textExtract with
        | some (pkg, ver, verCode, perms) =>
          Except.ok
            { packageName := pkg.getD "Unknown",
              versionCode := verCode.getD "Unknown",
              versionName := ver.getD "Unknown",
              permissions := perms, activities := [], services := [],
              receivers := [], providers := [], signatures := none }
        | none => Except.error "Failed to analyze Android manifest file"
      match src.binaryPermissions with
      | some perms => if perms.length ≠ 0 then Except.ok (unknownManifestWith perms) else textTier
      | none => textTier

/-- Manifest value the pipeline actually continues with: the catch at
analyzer.js lines 99-107 replaces any analyzeManifest error with the
defaulted record. -/
def pipelineManifest (src : ManifestSource) : ManifestInfo :=
  match analyzeManifest src with
  | Except.ok mi => mi
  | Except.error _ => defaultManifestInfo

/-! ## analyzeAPK control flow (analyzer.js lines 43-179)

The pipeline stages and their failure handling are embedded as a function of
an oracle describing which stage raises. The extraction/manifest/permission/
code block (lines 88-107) has its own catch that substitutes placeholder
results, recording the message in codeAnalysis.error; analyzeFileStructure
(line 79), checkThreatDatabase (line 111) and generateFinalResult (line 115)
raise into the stepError catch (lines 138-167), which rebuilds defaults and
finalizes again; only a failure of that fallback finalization (line 149)
marks the job failed, with the step error message (line 163). The 5-minute
timeout watcher is modelled separately with the job-record writes below. -/

inductive StepOutcome where
  | ok
  | err (msg : String)
deriving DecidableEq, Repr

structure PipelineRun where
  /-- analyzeFileStructure at line 79. -/
  fileStep : StepOutcome
  /-- extractAPK / analyzeManifest / analyzePermissions / analyzeCode block,
  whose errors are caught at line 99. -/
  extractStep : StepOutcome
  /-- checkThreatDatabase at line 111. -/
  threatStep : StepOutcome
  /-- generateFinalResult at line 115. -/
  finalizeStep : StepOutcome
  /-- generateFinalResult retried on defaults at line 149; in the fallback
  the file and threat steps are wrapped in .catch handlers and cannot
  raise. -/
  fallbackFinalizeStep : StepOutcome
deriving DecidableEq, Repr

/-- Terminal job state produced by one analyzeAPK run: the stored status, the
job-level error field, and the error note embedded inside a completed
result (codeAnalysis.error, lines 106 and 146). -/
structure JobOutcome where
  status : String
  error : Option String
  embeddedError : Option String
deriving DecidableEq, Repr

/-- The stepError catch of lines 138-167: rebuild default assessments and
finalize; if the fallback finalization itself raises, mark the job failed
with the step error message. -/
def fallbackFinalize (stepMsg : String) (r : PipelineRun) : JobOutcome :=
  match r.fallbackFinalizeStep with
  | StepOutcome.ok => { status := "completed", error := none, embeddedError := some stepMsg }
  | StepOutcome.err _ => { status := "failed", error := some stepMsg, embeddedError := none }

/-- First error that reaches the stepError catch, in source order; errors of
the extraction block never reach it because of the inner catch at line 99. -/
def firstStepError (r : PipelineRun) : Option String :=
  match r.fileStep with
  | StepOutcome.err m => some m
  | StepOutcome.ok =>
    match r.threatStep with
    | StepOutcome.err m => some m
    | StepOutcome.ok =>
      match r.finalizeStep with
      | StepOutcome.err m => some m
      | StepOutcome.ok => none

/-- Source embedding of the analyzeAPK control flow over the stage oracle. -/
def analyzeAPKOutcome (r : PipelineRun) : JobOutcome :=
  match r.fileStep with
  | StepOutcome.err m => fallbackFinalize m r
  | StepOutcome.ok =>
    let embedded :=
      match r.extractStep with
      | StepOutcome.err m => some m
      | StepOutcome.ok => none
    match r.threatStep with
    | StepOutcome.err m => fallbackFinalize m r
    | StepOutcome.ok =>
      match r.finalizeStep with
      | StepOutcome.err m => fallbackFinalize m r
      | StepOutcome.ok => { status := "completed", error := none, embeddedError := embedded }

/-! ## Job-record writes (analyzer.js lines 36-74, 1036-1050)

updateProgress overwrites the progress field unconditionally and never checks
the current status; the timeout watcher (lines 64-74) first calls
updateProgress with 0 and then sets status failed; generateFinalResult stores
a record with status completed (lines 946 and 966). The model records each
individual map write so that the order of progress values and status
transitions over one job lifetime can be inspected. -/

structure JobRecord where
  status : String
  progress : Nat
  error : Option String
deriving DecidableEq, Repr

/-- The record created at the start of analyzeAPK (lines 48-55). -/
def initialJobRecord : JobRecord :=
  { status := "processing", progress := 0, error := none }

inductive JobWrite where
  /-- updateProgress: sets the progress field (line 1039). -/
  | setProgress (p : Nat)
  /-- Timeout or failure handler: sets status failed and an error message
  (lines 70-71, 162-163, 174-175). -/
  | setFailed (msg : String)
  /-- generateFinalResult stores the completed result (lines 946, 966). -/
  | setCompleted
deriving DecidableEq, Repr

/-- Effect of one map write on the job record. -/
def applyWrite (j : JobRecord) : JobWrite → JobRecord
  | JobWrite.setProgress p => { j with progress := p }
  | JobWrite.setFailed msg => { j with status := "failed", error := some msg }
  | JobWrite.setCompleted => { j with status := "completed" }

/-- A status is terminal when it is completed or failed. -/
def isTerminal (status : String) : Bool :=
  status = "completed" ∨ status = "failed"

/-- Progress values written by updateProgress calls made while the record was
still non-terminal at the moment of the write. -/
def progressWritesWhileNonTerminal (j : JobRecord) : List JobWrite → List Nat
  | [] => []
  | w :: ws =>
    let rest := progressWritesWhileNonTerminal (applyWrite j w) ws
    match w with
    | JobWrite.setProgress p => if isTerminal j.status then rest else p :: rest
    | _ => rest

/-- Number of writes that move the record from a non-terminal status to a
terminal one, or from one terminal status to the other. -/
def terminalTransitions (j : JobRecord) : List JobWrite → Nat
  | [] => 0
  | w :: ws =>
    let j' := applyWrite j w
    let rest := terminalTransitions j' ws
    if j.status ≠ j'.status ∧ isTerminal j'.status then rest + 1 else rest

/-- A list of naturals is non-decreasing. -/
def nondecreasing : List Nat → Bool
  | [] => true
  | [_] => true
  | a :: b :: rest => a ≤ b && nondecreasing (b :: rest)

/-- The write sequence of an analyzeAPK run that goes through every stage
without timeout or error: the updateProgress calls at lines 60, 78, 82, 91,
94, 97, 110 and 114 followed by the completed store of generateFinalResult. -/
def pipelineWrites : List JobWrite :=
  [JobWrite.setProgress 5, JobWrite.setProgress 20, JobWrite.setProgress 40,
   JobWrite.setProgress 60, JobWrite.setProgress 80, JobWrite.setProgress 90,
   JobWrite.setProgress 95, JobWrite.setProgress 100, JobWrite.setCompleted]

/-- The two writes of the timeout watcher body (lines 64-74): updateProgress
with 0, then status failed with the timeout message. -/
def timeoutWrites : List JobWrite :=
  [JobWrite.setProgress 0, JobWrite.setFailed "Analysis timeout - process took too long"]

/-- A realizable interleaving: the watcher fires after the Extracting APK
step (progress 40) while a slow stage is in flight, and the pipeline, which
is never cancelled (analyzer.js line 62, spec section 9), keeps running and
finalizes. -/
def timeoutRaceWrites : List JobWrite :=
  [JobWrite.setProgress 5, JobWrite.setProgress 20, JobWrite.setProgress 40] ++
    timeoutWrites ++
    [JobWrite.setProgress 60, JobWrite.setProgress 80, JobWrite.setProgress 90,
     JobWrite.setProgress 95, JobWrite.setProgress 100, JobWrite.setCompleted]

/-! ## Threat database (database.js lines 223-273)

this.threats is a JavaScript Map from string keys (hashes and package names)
to threat records; it is embedded as an association list with Map.set
replace-or-append semantics. JavaScript truthiness of the optional string
fields is modelled by jsTruthy. -/

structure ThreatRecord where
  id : Option String
  hash : Option String
  packageName : Option String
  threatType : String
  family : Option String
  confidence : Nat
  description : String
  severity : String
  firstSeen : Option String
  lastSeen : Option String
deriving DecidableEq, Repr

/-- JavaScript truthiness of an optional string: undefined and the empty
string are falsy. -/
def jsTruthy : Option String → Bool
  | none => false
  | some s => s ≠ ""

abbrev ThreatMap := List (String × ThreatRecord)

/-- Map.prototype.get (returning undefined as none). -/
def mapGet : ThreatMap → String → Option ThreatRecord
  | [], _ => none
  | e :: rest, k => if e.1 = k then some e.2 else mapGet rest k

/-- Map.prototype.has: the key is present exactly when get finds a value. -/
def mapHas (m : ThreatMap) (k : String) : Bool :=
  (mapGet m k).isSome

/-- Map.prototype.set: replace the value at an existing key in place, else
append a new entry. -/
def mapSet (m : ThreatMap) (k : String) (v : ThreatRecord) : ThreatMap :=
  match m with
  | [] => [(k, v)]
  | e :: rest => if e.1 = k then (k, v) :: rest else e :: mapSet rest k v

/-- Source embedding of lookupThreat (database.js lines 223-235): the hash
key is consulted first, then the package-name key when the argument is
truthy, and absence yields null. -/
def lookupThreat (threats : ThreatMap) (hash packageName : String) : Option ThreatRecord :=
  if mapHas threats hash then mapGet threats hash
  else if packageName ≠ "" ∧ mapHas threats packageName then mapGet threats packageName
  else none

/-- Field-stamping of addThreat (database.js lines 244-253): default id to
the timestamp-generated one, default firstSeen, and overwrite lastSeen with
the current date. -/
def stampThreat (today generatedId : String) (t : ThreatRecord) : ThreatRecord :=
  let t := if ¬jsTruthy t.id then { t with id := some generatedId } else t
  let t := if ¬jsTruthy t.firstSeen then { t with firstSeen := some today } else t
  { t with lastSeen := some today }

/-- Map contents after the two set calls of addThreat (lines 256-261). -/
def addThreatMap (threats : ThreatMap) (today generatedId : String) (t : ThreatRecord) :
    ThreatMap :=
  let stamped := stampThreat today generatedId t
  let threats := if jsTruthy stamped.hash then mapSet threats (stamped.hash.getD "") stamped
    else threats
  if jsTruthy stamped.packageName then mapSet threats (stamped.packageName.getD "") stamped
  else threats

/-- Source embedding of addThreat (database.js lines 237-273): reject a
record carrying neither key, otherwise stamp it, store it under each truthy
key and return it. Disk persistence is outside the model. -/
def addThreat (threats : ThreatMap) (today generatedId : String) (t : ThreatRecord) :
    Except String (ThreatMap × ThreatRecord) :=
  if ¬jsTruthy t.hash ∧ ¬jsTruthy t.packageName then
    Except.error "Threat must have either hash or package name"
  else
    Except.ok (addThreatMap threats today generatedId t, stampThreat today generatedId t)

/-- Statement of claim C7 in its own words: one sum of the three tier
contributions, minus the single-low-match discount of 5, minus the
no-high-no-medium discount of 10, clamped to the 0-100 range. -/
def codeRiskPerClaim (patterns : List String) : Nat :=
  let highCount := (patterns.filter (fun p => patternTier p = PatternTier.high)).length
  let mediumCount := (patterns.filter (fun p => patternTier p = PatternTier.medium)).length
  let lowCount := (patterns.filter (fun p => patternTier p = PatternTier.low)).length
  let contributions :=
    (if 0 < highCount then min (25 + highCount * 8) 60 else 0) +
      (if 2 ≤ mediumCount then min (20 + mediumCount * 5) 40 else 0) +
      (if 3 ≤ lowCount then min (15 + lowCount * 3) 30 else 0)
  let discounted :=
    contributions - (if patterns.length = 1 ∧ lowCount = 1 then 5 else 0) -
      (if highCount = 0 ∧ mediumCount = 0 then 10 else 0)
  min discounted 100

/-! ## Concrete sample inputs used by witnesses and counterexamples -/

def sampleFile : FileAnalysis :=
  { size := 4096, hash := some "aa", hashSha1 := some "bb", isValidAPK := true,
    filename := none }

def hackNamedFile : FileAnalysis :=
  { size := 4096, hash := some "cc", hashSha1 := some "dd", isValidAPK := true,
    filename := some "hack.apk" }

def bankManifest : ManifestInfo :=
  { packageName := "com.bank.app", versionCode := "7", versionName := "1.0",
    permissions := ["android.permission.READ_SMS"], activities := [], services := [],
    receivers := [], providers := [], signatures := none }

def plainManifest : ManifestInfo :=
  { packageName := "com.sample.notes", versionCode := "1", versionName := "1.0",
    permissions := [], activities := [], services := [], receivers := [],
    providers := [], signatures := none }

/-- Permission assessment whose only suspicious entry is READ_SMS, with a
chosen sub-score. -/
def smsPermissions (score : Nat) : PermissionAnalysis :=
  { total := 1, suspicious := ["android.permission.READ_SMS"], banking := [],
    riskScore := score }

/-- Permission assessment with no suspicious entries and a chosen sub-score. -/
def noSuspiciousPermissions (score : Nat) : PermissionAnalysis :=
  { total := 0, suspicious := [], banking := [], riskScore := score }

/-- Code assessment with no matched patterns and a chosen sub-score. -/
def noPatternsCode (score : Nat) : CodeAnalysis :=
  { dexFiles := 1, suspiciousPatterns := [], riskScore := score, error := none }

/-- A positive lookup result as produced by checkThreatDatabase on a database
hit (analyzer.js lines 762-769). -/
def knownThreatHit : ThreatAnalysis :=
  { isKnownThreat := true, threatType := some "banking_trojan", confidence := 95,
    description := some "Fake banking application designed to steal credentials" }

/-- A threat record carrying both lookup keys, mirroring the seeded record of
database.js lines 77-95. -/
def sampleThreatRecord : ThreatRecord :=
  { id := some "threat_001", hash := some "aa", packageName := some "com.evil.app",
    threatType := "banking_trojan", family := some "Anubis", confidence := 95,
    description := "Fake banking application designed to steal credentials",
    severity := "high", firstSeen := some "2024-01-01", lastSeen := some "2024-06-01" }

/-- An extracted tree whose AndroidManifest.xml is absent. -/
def missingManifestTree : ManifestSource :=
  { present := false, structuredParse := none, binaryPermissions := none,
    textExtract := none }

/-- A pipeline run whose only failure is inside the extraction/manifest
block. -/
def extractFailureRun : PipelineRun :=
  { fileStep := StepOutcome.ok, extractStep := StepOutcome.err "unzip failed",
    threatStep := StepOutcome.ok, finalizeStep := StepOutcome.ok,
    fallbackFinalizeStep := StepOutcome.ok }

/-! # Theorems

Helper lemmas come first, then one theorem per claim (with its witness or
counterexample where required). -/

/-- Folding the per-permission increment from a seed equals the seed plus the
mapped sum. -/
theorem foldl_add_permIncrement (l : List String) (n : Nat) :
    l.foldl (fun acc p => acc + permIncrement p) n = n + (l.map permIncrement).sum := by
  induction l generalizing n with
  | nil => simp
  | cons a t ih => simp [ih]; omega

/-- Claim C1: calculateTotalRisk returns the rounded weighted sum of the two
sub-scores, floored at 70 when either sub-score is at least 60, floored at 90
when the threat lookup matched, capped at 20 when both sub-scores are below
15 without a match, and the result always lies in the 0-100 range. -/
theorem calculateTotalRisk_matches_claim (p c : Nat) (t : ThreatAnalysis) :
    calculateTotalRisk p c t = totalRiskPerClaim p c t.isKnownThreat ∧
      calculateTotalRisk p c t ≤ 100 := by
  constructor
  · cases h : t.isKnownThreat <;>
      simp [calculateTotalRisk, totalRiskPerClaim, h]
  · simp only [calculateTotalRisk]
    split_ifs <;> omega

/-- Claim C6: the permission risk score is 10 plus a tier increment per
matched suspicious permission (high 25, medium 15, low 8, otherwise 10),
minus 5 for exactly one low-tier match, plus 15 for five or more matches,
clamped to the 0-100 range. -/
theorem calculatePermissionRisk_matches_claim (permissions suspicious : List String) :
    calculatePermissionRisk permissions suspicious = permissionRiskPerClaim suspicious ∧
      calculatePermissionRisk permissions suspicious ≤ 100 := by
  constructor
  · match suspicious with
    | [] => simp [calculatePermissionRisk, permissionRiskPerClaim]
    | [p] =>
      simp [calculatePermissionRisk, permissionRiskPerClaim, foldl_add_permIncrement]
    | a :: b :: t =>
      simp [calculatePermissionRisk, permissionRiskPerClaim, foldl_add_permIncrement,
        Nat.add_assoc]
  · simp only [calculatePermissionRisk]
    split_ifs <;> omega

/-- Claim C7: the code risk score adds min(25 + 8 per high match, 60) when a
high-risk pattern matched, a contribution capped at 40 when at least two
medium-risk patterns matched, a contribution capped at 30 when at least three
low-risk patterns matched, discounts 5 for a single isolated low-risk match,
discounts 10 when no high- or medium-risk pattern matched, and the result
lies in the 0-100 range. -/
theorem calculateCodeRisk_matches_claim (patterns : List String) :
    calculateCodeRisk patterns = codeRiskPerClaim patterns ∧
      calculateCodeRisk patterns ≤ 100 := by
  constructor
  · simp only [calculateCodeRisk, codeRiskPerClaim]
    split_ifs <;> omega
  · simp only [calculateCodeRisk]
    split_ifs <;> omega

/-- One floor application only raises the running score. -/
theorem applyFloor_score_mono (c : Prop) [Decidable c] (b : Nat) (a : Adjustment)
    (st : ScoreState) : st.score ≤ (applyFloor c b a st).score := by
  unfold applyFloor
  split_ifs <;> simp

/-- The contextual permission floors only raise the running score. -/
theorem permissionBoostsStep_score_mono (pa : PermissionAnalysis) (st : ScoreState) :
    st.score ≤ (permissionBoostsStep pa st).score := by
  unfold permissionBoostsStep
  split_ifs
  · exact le_trans (applyFloor_score_mono _ _ _ st)
      (le_trans (applyFloor_score_mono _ _ _ _) (applyFloor_score_mono _ _ _ _))
  · exact le_refl _

/-- The contextual code-pattern floors only raise the running score. -/
theorem patternBoostsStep_score_mono (ca : CodeAnalysis) (st : ScoreState) :
    st.score ≤ (patternBoostsStep ca st).score := by
  unfold patternBoostsStep
  split_ifs
  · exact le_trans (applyFloor_score_mono _ _ _ st) (applyFloor_score_mono _ _ _ _)
  · exact le_refl _

/-- Every contextual boost only raises the running score. -/
theorem contextualBoosts_score_mono (f pk : String) (pa : PermissionAnalysis)
    (ca : CodeAnalysis) (st : ScoreState) :
    st.score ≤ (contextualBoosts f pk pa ca st).score := by
  unfold contextualBoosts maliciousNameStep moddedNameStep
  exact le_trans (applyFloor_score_mono _ _ _ st)
    (le_trans (applyFloor_score_mono _ _ _ _)
      (le_trans (permissionBoostsStep_score_mono pa _) (patternBoostsStep_score_mono ca _)))

/-- With a known threat the aggregated base score is at least 90. -/
theorem calculateTotalRisk_ge_90_of_threat (p c : Nat) (t : ThreatAnalysis)
    (h : t.isKnownThreat = true) : 90 ≤ calculateTotalRisk p c t := by
  unfold calculateTotalRisk
  split_ifs <;> simp_all

/-- The banking-name reduction leaves a score of at least 60 untouched. -/
theorem bankingReductionStep_noop (f pk : String) (st : ScoreState) (h : 60 ≤ st.score) :
    bankingReductionStep f pk st = st := by
  unfold bankingReductionStep
  split_ifs <;> first | rfl | omega

/-- The signature reduction leaves a score of at least 50 untouched. -/
theorem signatureReductionStep_noop (mi : ManifestInfo) (st : ScoreState) (h : 50 ≤ st.score) :
    signatureReductionStep mi st = st := by
  unfold signatureReductionStep
  split_ifs <;> first | rfl | omega

/-- The no-signals cap does nothing when the threat lookup matched. -/
theorem noSignalsCapStep_noop_of_threat (pa : PermissionAnalysis) (ca : CodeAnalysis)
    (ta : ThreatAnalysis) (st : ScoreState) (h : ta.isKnownThreat = true) :
    noSignalsCapStep pa ca ta st = st := by
  unfold noSignalsCapStep
  rw [if_neg]
  simp [h]

/-- The low-signals guard does nothing when the threat lookup matched. -/
theorem lowSignalsGuardStep_noop_of_threat (pa : PermissionAnalysis) (ca : CodeAnalysis)
    (ta : ThreatAnalysis) (st : ScoreState) (h : ta.isKnownThreat = true) :
    lowSignalsGuardStep pa ca ta st = st := by
  unfold lowSignalsGuardStep
  rw [if_neg]
  simp [h]

/-- When both sub-scores are below 25 and no threat matched, the low-signals
guard forces the score to at most 20. -/
theorem lowSignalsGuardStep_le_20 (pa : PermissionAnalysis) (ca : CodeAnalysis)
    (ta : ThreatAnalysis) (st : ScoreState) (h1 : pa.riskScore < 25)
    (h2 : ca.riskScore < 25) (h3 : ta.isKnownThreat = false) :
    (lowSignalsGuardStep pa ca ta st).score ≤ 20 := by
  unfold lowSignalsGuardStep
  rw [if_pos ⟨h1, h2, by simp [h3]⟩]
  simp

/-- Claim C4: when the threat lookup matched, the verdict produced by
generateFinalResult carries a risk score of at least 90, regardless of the
sub-scores, the banking-name reduction, the signature reduction and the
low-signal caps. -/
theorem known_threat_floor_90 (id : String) (fa : FileAnalysis) (mi : ManifestInfo)
    (pa : PermissionAnalysis) (ca : CodeAnalysis) (ta : ThreatAnalysis)
    (h : ta.isKnownThreat = true) :
    90 ≤ (generateFinalResult id fa mi pa ca ta).riskScore := by
  have hbase : 90 ≤ calculateTotalRisk pa.riskScore ca.riskScore ta :=
    calculateTotalRisk_ge_90_of_threat _ _ _ h
  have hboost : 90 ≤ (scoreBeforeBanking fa mi pa ca ta).score := by
    refine le_trans hbase ?_
    simp only [scoreBeforeBanking]
    exact contextualBoosts_score_mono _ _ _ _
      { score := calculateTotalRisk pa.riskScore ca.riskScore ta, adjustments := [] }
  simp only [generateFinalResult]
  rw [bankingReductionStep_noop _ _ _ (by omega), signatureReductionStep_noop _ _ (by omega),
    noSignalsCapStep_noop_of_threat _ _ _ _ h, lowSignalsGuardStep_noop_of_threat _ _ _ _ h]
  omega

/-- Witness for C4 at a concrete input: a matched threat with both sub-scores
at 10 still scores at least 90. -/
theorem known_threat_floor_90_witness :
    knownThreatHit.isKnownThreat = true ∧
      90 ≤ (generateFinalResult "job-c4" sampleFile plainManifest
        (noSuspiciousPermissions 10) (noPatternsCode 10) knownThreatHit).riskScore :=
  ⟨rfl, known_threat_floor_90 _ _ _ _ _ _ rfl⟩

/-- Claim C10: when the permission sub-score and the code sub-score are both
below 25 and the threat lookup did not match, generateFinalResult caps the
final risk score at 20, even when earlier contextual floors raised the
intermediate score above 20. -/
theorem low_signals_guard_caps_at_20 (id : String) (fa : FileAnalysis) (mi : ManifestInfo)
    (pa : PermissionAnalysis) (ca : CodeAnalysis) (ta : ThreatAnalysis)
    (h1 : pa.riskScore < 25) (h2 : ca.riskScore < 25) (h3 : ta.isKnownThreat = false) :
    (generateFinalResult id fa mi pa ca ta).riskScore ≤ 20 := by
  simp only [generateFinalResult]
  have := lowSignalsGuardStep_le_20 pa ca ta
    (noSignalsCapStep pa ca ta
      (signatureReductionStep mi
        (bankingReductionStep (jsToLower (fa.filename.getD "")) (jsToLower mi.packageName)
          (scoreBeforeBanking fa mi pa ca ta)))) h1 h2 h3
  omega

/-- Witness for C10 at a concrete input: the filename hack.apk floors the
intermediate score at 80, yet with sub-scores 10/10 and no threat the final
score is capped at 20. -/
theorem low_signals_guard_caps_at_20_witness :
    (noSuspiciousPermissions 10).riskScore < 25 ∧ (noPatternsCode 10).riskScore < 25 ∧
      noThreat.isKnownThreat = false ∧
      (scoreBeforeBanking hackNamedFile plainManifest (noSuspiciousPermissions 10)
        (noPatternsCode 10) noThreat).score = 80 ∧
      (generateFinalResult "job-c10" hackNamedFile plainManifest (noSuspiciousPermissions 10)
        (noPatternsCode 10) noThreat).riskScore ≤ 20 :=
  ⟨by decide, by decide, rfl, by decide,
    low_signals_guard_caps_at_20 _ _ _ _ _ _ (by decide) (by decide) rfl⟩

/-- The signature reduction extends but never removes adjustment entries. -/
theorem signatureReductionStep_mem_adjustments (mi : ManifestInfo) (st : ScoreState)
    (a : Adjustment) (h : a ∈ st.adjustments) :
    a ∈ (signatureReductionStep mi st).adjustments := by
  unfold signatureReductionStep
  split_ifs <;> simp [h]

/-- The no-signals cap extends but never removes adjustment entries. -/
theorem noSignalsCapStep_mem_adjustments (pa : PermissionAnalysis) (ca : CodeAnalysis)
    (ta : ThreatAnalysis) (st : ScoreState) (a : Adjustment) (h : a ∈ st.adjustments) :
    a ∈ (noSignalsCapStep pa ca ta st).adjustments := by
  unfold noSignalsCapStep
  split_ifs <;> simp [h]

/-- The low-signals guard extends but never removes adjustment entries. -/
theorem lowSignalsGuardStep_mem_adjustments (pa : PermissionAnalysis) (ca : CodeAnalysis)
    (ta : ThreatAnalysis) (st : ScoreState) (a : Adjustment) (h : a ∈ st.adjustments) :
    a ∈ (lowSignalsGuardStep pa ca ta st).adjustments := by
  unfold lowSignalsGuardStep
  split_ifs <;> simp [h]

/-- Counterexample to claim C8: the package name com.bank.app carries a
banking indicator and the aggregate score at the banking check is 70, which
is below 80, yet generateFinalResult applies no reduction: the final score
stays 70 and no adjustment is recorded at all. The source gates the
reduction on score < 60 (analyzer.js line 897), not on score < 80. -/
theorem banking_reduction_skipped_at_70 :
    matchesAny (jsToLower bankManifest.packageName) bankingNameAlts = true ∧
      (scoreBeforeBanking sampleFile bankManifest (smsPermissions 70) (noPatternsCode 70)
        noThreat).score = 70 ∧
      (generateFinalResult "job-c8" sampleFile bankManifest (smsPermissions 70)
        (noPatternsCode 70) noThreat).riskScore = 70 ∧
      (generateFinalResult "job-c8" sampleFile bankManifest (smsPermissions 70)
        (noPatternsCode 70) noThreat).adjustments = [] := by
  refine ⟨by decide, by decide, by decide, by decide⟩

/-- Claim C8 as amended: the banking-name reduction fires only when the
aggregate score at that point is below 60 (not 80); in that case the score
drops by 15 and the named reduction is recorded in the final breakdown. -/
theorem banking_reduction_below_60 (id : String) (fa : FileAnalysis) (mi : ManifestInfo)
    (pa : PermissionAnalysis) (ca : CodeAnalysis) (ta : ThreatAnalysis)
    (hname : matchesAny (jsToLower mi.packageName) bankingNameAlts = true ∨
      matchesAny (jsToLower (fa.filename.getD "")) bankingNameAlts = true)
    (hlt : (scoreBeforeBanking fa mi pa ca ta).score < 60) :
    (bankingReductionStep (jsToLower (fa.filename.getD "")) (jsToLower mi.packageName)
        (scoreBeforeBanking fa mi pa ca ta)).score =
      (scoreBeforeBanking fa mi pa ca ta).score - 15 ∧
      reductionAdj "Legitimate banking app indicators" 15 ∈
        (generateFinalResult id fa mi pa ca ta).adjustments := by
  have hbank :
      bankingReductionStep (jsToLower (fa.filename.getD "")) (jsToLower mi.packageName)
          (scoreBeforeBanking fa mi pa ca ta) =
        { score := max ((scoreBeforeBanking fa mi pa ca ta).score - 15) 0,
          adjustments := (scoreBeforeBanking fa mi pa ca ta).adjustments ++
            [reductionAdj "Legitimate banking app indicators" 15] } := by
    unfold bankingReductionStep
    rw [if_pos hname, if_pos hlt]
  constructor
  · rw [hbank]
    simp
  · simp only [generateFinalResult]
    apply lowSignalsGuardStep_mem_adjustments
    apply noSignalsCapStep_mem_adjustments
    apply signatureReductionStep_mem_adjustments
    rw [hbank]
    simp

/-- Witness for the amended C8 at a concrete input: with sub-scores 30/30 and
package name com.bank.app the score at the banking check is 30, the reduction
applies and is recorded. -/
theorem banking_reduction_below_60_witness :
    matchesAny (jsToLower bankManifest.packageName) bankingNameAlts = true ∧
      (scoreBeforeBanking sampleFile bankManifest (smsPermissions 30) (noPatternsCode 30)
        noThreat).score < 60 ∧
      (bankingReductionStep (jsToLower (sampleFile.filename.getD ""))
          (jsToLower bankManifest.packageName)
          (scoreBeforeBanking sampleFile bankManifest (smsPermissions 30) (noPatternsCode 30)
            noThreat)).score =
        (scoreBeforeBanking sampleFile bankManifest (smsPermissions 30) (noPatternsCode 30)
          noThreat).score - 15 ∧
      reductionAdj "Legitimate banking app indicators" 15 ∈
        (generateFinalResult "job-c8w" sampleFile bankManifest (smsPermissions 30)
          (noPatternsCode 30) noThreat).adjustments := by
  have h := banking_reduction_below_60 "job-c8w" sampleFile bankManifest (smsPermissions 30)
    (noPatternsCode 30) noThreat (Or.inl (by decide)) (by decide)
  exact ⟨by decide, by decide, h.1, h.2⟩

/-- Counterexample to claim C5: on an extracted tree without
AndroidManifest.xml, analyzeManifest raises (returns the error thrown at
analyzer.js line 251) instead of returning a defaulted ManifestInfo. -/
theorem analyzeManifest_raises_on_missing_manifest :
    analyzeManifest missingManifestTree = Except.error "AndroidManifest.xml not found" := by
  rfl

/-- Claim C5 as amended: analyzeManifest itself raises when the manifest file
is absent; the defaulted ManifestInfo with Unknown fields and empty lists is
produced one level up, by the pipeline catch of analyzeAPK (lines 99-107),
which replaces the raised error so the pipeline never sees it. -/
theorem missing_manifest_pipeline_defaults (src : ManifestSource)
    (h : src.present = false) :
    analyzeManifest src = Except.error "AndroidManifest.xml not found" ∧
      pipelineManifest src = defaultManifestInfo := by
  have h1 : analyzeManifest src = Except.error "AndroidManifest.xml not found" := by
    unfold analyzeManifest
    rw [if_pos (by simp [h])]
  exact ⟨h1, by unfold pipelineManifest; rw [h1]⟩

/-- Witness for the amended C5 at the concrete absent-manifest tree. -/
theorem missing_manifest_pipeline_defaults_witness :
    missingManifestTree.present = false ∧
      analyzeManifest missingManifestTree = Except.error "AndroidManifest.xml not found" ∧
      pipelineManifest missingManifestTree = defaultManifestInfo :=
  ⟨rfl, (missing_manifest_pipeline_defaults missingManifestTree rfl).1,
    (missing_manifest_pipeline_defaults missingManifestTree rfl).2⟩

/-- Claim C3: any unexpected stage error still drives the job to completed
with an embedded error note, both for errors of the extraction/manifest block
(caught inline with placeholder substitutes) and for errors reaching the
stepError catch (finalized again on defaults); the job is marked failed, with
the step error message, only when the fallback assembly of the final verdict
itself raises. -/
theorem stage_errors_still_complete (r : PipelineRun) (m : String) :
    (firstStepError r = some m → r.fallbackFinalizeStep = StepOutcome.ok →
      analyzeAPKOutcome r =
        { status := "completed", error := none, embeddedError := some m }) ∧
      (r.fileStep = StepOutcome.ok → r.extractStep = StepOutcome.err m →
        r.threatStep = StepOutcome.ok → r.finalizeStep = StepOutcome.ok →
        analyzeAPKOutcome r =
          { status := "completed", error := none, embeddedError := some m }) ∧
      ((analyzeAPKOutcome r).status = "failed" →
        ∃ m1, firstStepError r = some m1 ∧ (analyzeAPKOutcome r).error = some m1 ∧
          ∃ m2, r.fallbackFinalizeStep = StepOutcome.err m2) := by
  obtain ⟨fs, es, ts, fin, fb⟩ := r
  cases fs <;> cases es <;> cases ts <;> cases fin <;> cases fb <;>
    simp_all [analyzeAPKOutcome, firstStepError, fallbackFinalize]

/-- Witness for C3 at a concrete run: a failing extraction stage with every
other stage healthy completes with the error embedded. -/
theorem stage_errors_still_complete_witness :
    analyzeAPKOutcome extractFailureRun =
      { status := "completed", error := none, embeddedError := some "unzip failed" } :=
  (stage_errors_still_complete extractFailureRun "unzip failed").2.1 rfl rfl rfl rfl

/-- Counterexample to claim C2: in the realizable interleaving in which the
5-minute watcher fires mid-pipeline, the progress values written while the
job is non-terminal are 5, 20, 40, 0 - not non-decreasing - and the terminal
status is set twice (failed by the watcher, then completed by the
never-cancelled pipeline). -/
theorem timeout_race_breaks_progress_claim :
    progressWritesWhileNonTerminal initialJobRecord timeoutRaceWrites = [5, 20, 40, 0] ∧
      nondecreasing (progressWritesWhileNonTerminal initialJobRecord timeoutRaceWrites) =
        false ∧
      terminalTransitions initialJobRecord timeoutRaceWrites = 2 := by
  refine ⟨by decide, by decide, by decide⟩

/-- Claim C2 as amended: along the pipeline write sequence itself, with no
timeout or error handler interleaved, the progress values written while
non-terminal are the non-decreasing 5, 20, 40, 60, 80, 90, 95, 100 and the
terminal status is set exactly once; the monotonicity and single-terminal
guarantees hold only for that interleaving-free lifetime. -/
theorem pipeline_writes_monotone_single_terminal :
    nondecreasing (progressWritesWhileNonTerminal initialJobRecord pipelineWrites) = true ∧
      terminalTransitions initialJobRecord pipelineWrites = 1 := by
  refine ⟨by decide, by decide⟩

/-- Stamping never changes the hash key of a record. -/
theorem stampThreat_hash (today gid : String) (t : ThreatRecord) :
    (stampThreat today gid t).hash = t.hash := by
  simp only [stampThreat]
  split_ifs <;> rfl

/-- Stamping never changes the package-name key of a record. -/
theorem stampThreat_packageName (today gid : String) (t : ThreatRecord) :
    (stampThreat today gid t).packageName = t.packageName := by
  simp only [stampThreat]
  split_ifs <;> rfl

/-- Map.set followed by get at the same key yields the stored value. -/
theorem mapGet_mapSet_self (m : ThreatMap) (k : String) (v : ThreatRecord) :
    mapGet (mapSet m k v) k = some v := by
  induction m with
  | nil => simp [mapSet, mapGet]
  | cons e rest ih =>
    unfold mapSet
    split_ifs with h
    · simp [mapGet]
    · simp [mapGet, h, ih]

/-- Map.set leaves every other key unchanged. -/
theorem mapGet_mapSet_ne (m : ThreatMap) (k k2 : String) (v : ThreatRecord) (h : k ≠ k2) :
    mapGet (mapSet m k v) k2 = mapGet m k2 := by
  induction m with
  | nil => simp [mapSet, mapGet, h]
  | cons e rest ih =>
    unfold mapSet
    split_ifs with he
    · simp [mapGet, h, he]
    · simp [mapGet, ih]

/-- Map.set makes its key present. -/
theorem mapHas_mapSet_self (m : ThreatMap) (k : String) (v : ThreatRecord) :
    mapHas (mapSet m k v) k = true := by
  simp [mapHas, mapGet_mapSet_self]

/-- With both keys truthy, addThreat stores the stamped record under the hash
key and then under the package-name key. -/
theorem addThreatMap_eq (m : ThreatMap) (today gid : String) (t : ThreatRecord)
    (hh pp : String) (h1 : t.hash = some hh) (h2 : hh ≠ "") (h3 : t.packageName = some pp)
    (h4 : pp ≠ "") :
    addThreatMap m today gid t =
      mapSet (mapSet m hh (stampThreat today gid t)) pp (stampThreat today gid t) := by
  simp only [addThreatMap]
  rw [stampThreat_hash, stampThreat_packageName, h1, h3]
  simp [jsTruthy, h2, h4]

/-- Claim C9: lookupThreat consults the hash key first, then the package-name
key, and returns null rather than an error when neither key is present; after
addThreat on a record carrying both keys, a lookup by the hash and a lookup
by the package name each return the identical stored record (the input record
with id and timestamps stamped in place). -/
theorem lookupThreat_addThreat_contract :
    (∀ (m : ThreatMap) (h p : String), mapHas m h = true → lookupThreat m h p = mapGet m h) ∧
      (∀ (m : ThreatMap) (h p : String), mapHas m h = false → mapHas m p = false →
        lookupThreat m h p = none) ∧
      (∀ (m : ThreatMap) (today gid : String) (t : ThreatRecord) (hh pp : String),
        t.hash = some hh → hh ≠ "" → t.packageName = some pp → pp ≠ "" →
        addThreat m today gid t =
          Except.ok (addThreatMap m today gid t, stampThreat today gid t) ∧
          (∀ q : String, lookupThreat (addThreatMap m today gid t) hh q =
            some (stampThreat today gid t)) ∧
          (∀ h2 : String, mapHas (addThreatMap m today gid t) h2 = false →
            lookupThreat (addThreatMap m today gid t) h2 pp =
              some (stampThreat today gid t))) := by
  refine ⟨?_, ?_, ?_⟩
  · intro m h p hh
    unfold lookupThreat
    rw [if_pos hh]
  · intro m h p h1 h2
    simp [lookupThreat, h1, h2]
  · intro m today gid t hh pp h1 h2 h3 h4
    have hM := addThreatMap_eq m today gid t hh pp h1 h2 h3 h4
    have hget : mapGet (addThreatMap m today gid t) hh = some (stampThreat today gid t) := by
      rw [hM]
      by_cases hpph : pp = hh
      · rw [hpph]
        exact mapGet_mapSet_self _ _ _
      · rw [mapGet_mapSet_ne _ _ _ _ hpph]
        exact mapGet_mapSet_self _ _ _
    refine ⟨?_, ?_, ?_⟩
    · unfold addThreat
      rw [if_neg]
      simp [jsTruthy, h1, h2]
    · intro q
      unfold lookupThreat
      rw [if_pos (by simp [mapHas, hget])]
      exact hget
    · intro h2k hno
      unfold lookupThreat
      rw [if_neg (by simp [hno]), if_pos]
      · rw [hM]
        exact mapGet_mapSet_self _ _ _
      · refine ⟨h4, ?_⟩
        rw [hM]
        exact mapHas_mapSet_self _ _ _

/-- Witness for C9 at a concrete record carrying both keys: after adding it
to the empty store, the hash aa and the package name com.evil.app each
retrieve the same stamped record, and a lookup under an absent hash falls
back to the package-name key. -/
theorem lookupThreat_addThreat_contract_witness :
    addThreat [] "2026-02-03" "threat_1700000000000" sampleThreatRecord =
      Except.ok (addThreatMap [] "2026-02-03" "threat_1700000000000" sampleThreatRecord,
        stampThreat "2026-02-03" "threat_1700000000000" sampleThreatRecord) ∧
      lookupThreat (addThreatMap [] "2026-02-03" "threat_1700000000000" sampleThreatRecord)
          "aa" "" =
        some (stampThreat "2026-02-03" "threat_1700000000000" sampleThreatRecord) ∧
      lookupThreat (addThreatMap [] "2026-02-03" "threat_1700000000000" sampleThreatRecord)
          "zz" "com.evil.app" =
        some (stampThreat "2026-02-03" "threat_1700000000000" sampleThreatRecord) := by
  have h := lookupThreat_addThreat_contract.2.2 [] "2026-02-03" "threat_1700000000000"
    sampleThreatRecord "aa" "com.evil.app" rfl (by decide) rfl (by decide)
  exact ⟨h.1, h.2.1 "", h.2.2 "zz" (by decide)⟩

end BankAPK
